import Mathlib

/-!
Shallow embedding of the zway-telegram module (src/index.js) and proofs about
its notification routing, message composition, batch collection, flush
scheduling and send-completion logging.

JS strings are modelled as lists of characters (`Str`), JS numbers that hold
epoch milliseconds as `Nat`, the config log level and HTTP status as `Int`.
Absent/empty string fields (JS falsy strings) are modelled as `[]`.
-/

namespace Telegram

/-- Characters of a JS string. -/
abbrev Str := List Char

/-- Placeholder `$TIME` used by `composeMessage`. -/
def pTIME : Str := ("$TIME").data

/-- Placeholder `$DEVICE` used by `composeMessage`. -/
def pDEVICE : Str := ("$DEVICE").data

/-- Placeholder `$VALUE` used by `composeMessage`. -/
def pVALUE : Str := ("$VALUE").data

/-- The level substring checked by the handler (`notification.level.indexOf('device')`). -/
def deviceLevel : Str := ("device").data

/-- JS `s.indexOf(pat) >= 0`: does `pat` occur as a contiguous substring of `s`? -/
def hasSubstr : Str → Str → Bool
  | [], pat => pat.isEmpty
  | c :: rest, pat => pat.isPrefixOf (c :: rest) || hasSubstr rest pat

/-- JS `s.replace(pat, repl)` with a string pattern: replaces the leftmost
occurrence of `pat` in `s` by `repl`, leaving everything else unchanged.
JS additionally interprets dollar escapes (dollar-dollar, dollar-ampersand and
friends) inside `repl`; no replacement value in this module or in the claims
contains such an escape, so literal insertion is the faithful model. -/
def replaceFirst (pat repl : Str) : Str → Str
  | [] => if pat.isEmpty then repl else []
  | c :: rest =>
    if pat.isPrefixOf (c :: rest) then repl ++ (c :: rest).drop pat.length
    else c :: replaceFirst pat repl rest

/-- The `notification.message` object: `{ dev: deviceName, l: value }`. -/
structure NotifMessage where
  dev : Str
  l : Str
  deriving DecidableEq

/-- A host notification: `{ level, source, timestamp, message }`. -/
structure Notification where
  level : Str
  source : Str
  timestamp : Nat
  message : NotifMessage
  deriving DecidableEq

/-- One entry of `config.deviceNotifications`. Absent `deviceId`/`value`/
`message` are the empty (falsy) string `[]`; `options` is the disposition
string (`collect`, `ignore`, or anything else for the default). -/
structure DeviceRule where
  deviceId : Str
  value : Str
  message : Str
  options : Str
  deriving DecidableEq

/-- The module configuration fields the routing logic reads. -/
structure ModuleConfig where
  deviceNotifications : List DeviceRule
  forwardAllNotifications : Bool
  collectDefaultMessages : Bool
  defaultMessage : Str
  logLevel : Int

/-- `TelegramNotifier.prototype.find`: first element satisfying `func`,
JS `false` (no match) modelled as `none`. -/
def find {α : Type} : List α → (α → Bool) → Option α
  | [], _ => none
  | x :: rest, f => if f x then some x else find rest f

/-- `TelegramNotifier.prototype.indexOf`: index of the first element
satisfying `func`, JS `-1` modelled as `none`. -/
def indexOf {α : Type} (f : α → Bool) : List α → Option Nat
  | [] => none
  | x :: rest => if f x then some 0 else (indexOf f rest).map (· + 1)

/-- The comparator passed to `config.deviceNotifications.sort` in `init`:
returns -1 (here `true`, meaning x comes first) when
`x.deviceId && !y.deviceId || x.value && !y.value`, else 1 (`false`). -/
def ruleBefore (x y : DeviceRule) : Bool :=
  (!x.deviceId.isEmpty && y.deviceId.isEmpty) || (!x.value.isEmpty && y.value.isEmpty)

/-- Insert a rule into an already-processed list according to `ruleBefore`. -/
def insertRule (x : DeviceRule) : List DeviceRule → List DeviceRule
  | [] => [x]
  | y :: ys => if ruleBefore x y then x :: y :: ys else y :: insertRule x ys

/-- The in-place `config.deviceNotifications.sort(...)` performed by `init`.
JS engines leave the result of `Array.sort` unspecified for inconsistent
comparators; on every catalog considered here the comparator is consistent,
where every comparison sort (insertion sort included) produces the same,
unique sorted order. -/
def sortRules : List DeviceRule → List DeviceRule
  | [] => []
  | x :: xs => insertRule x (sortRules xs)

/-- The predicate of the handler's `find` call:
`x.deviceId === notification.source && (x.value === notification.message.l || !x.value)`. -/
def ruleMatches (n : Notification) (x : DeviceRule) : Bool :=
  decide (x.deviceId = n.source) &&
    (decide (x.value = n.message.l) || x.value.isEmpty)

/-- Rule lookup as the handler sees it: `init` sorts the catalog once, the
handler then scans it with `find`. -/
def matchRule (rules : List DeviceRule) (n : Notification) : Option DeviceRule :=
  find (sortRules rules) (ruleMatches n)

/-- `TelegramNotifier.prototype.composeMessage`: replaces, in this order, the
first occurrence of `$TIME` by the timestamp, of `$DEVICE` by the device name,
and of `$VALUE` by the value (JS number-to-string on the timestamp). -/
def composeMessage (message : Str) (n : Notification) : Str :=
  replaceFirst pVALUE n.message.l
    (replaceFirst pDEVICE n.message.dev
      (replaceFirst pTIME ((Nat.repr n.timestamp).data) message))

/-- One collected entry `{'time': ..., 'message': ...}`. -/
structure Entry where
  time : Nat
  message : Str
  deriving DecidableEq

/-- `this.messages`: a JS object mapping device names to entry arrays,
modelled as an association list with distinct keys (JS object keys are
unique; lookup and update act on the first matching key). -/
abbrev Messages := List (Str × List Entry)

/-- Object property read `this.messages[dev]`, `none` for `undefined`. -/
def lookupDev : Messages → Str → Option (List Entry)
  | [], _ => none
  | (k, es) :: rest, d => if k = d then some es else lookupDev rest d

/-- `this.messages[dev].push(e)`: append `e` to the array stored at `dev`. -/
def pushEntry : Messages → Str → Entry → Messages
  | [], _, _ => []
  | (k, es) :: rest, d, e =>
    if k = d then (k, es ++ [e]) :: rest else (k, es) :: pushEntry rest d e

/-- `TelegramNotifier.prototype.collectNotification`: create the device's
array when `undefined`, then push `{time: timestamp, message}`. -/
def collectNotification (m : Messages) (n : Notification) (message : Str) : Messages :=
  let m' := match lookupDev m n.message.dev with
    | none => m ++ [(n.message.dev, [])]
    | some _ => m
  pushEntry m' n.message.dev ⟨n.timestamp, message⟩

/-- What the notification handler does with one notification: nothing (early
return), a `collectNotification` call, or a `sendMessage` call with the given
text. The HTTP POST itself is host infrastructure. -/
inductive HandlerAction where
  | noAction
  | collect (text : Str)
  | send (text : Str)
  deriving DecidableEq

/-- `this.notificationHandler` from `init` (src/index.js lines 43-70).
When `find` yields no rule (JS `device === false`) and forwarding is off, the
source still evaluates `device.deviceId !== "" && device.options !== 'ignore'`;
on the primitive `false` both property reads give `undefined`, so that branch
runs with the default template and a non-collect disposition. A matched rule
whose guard fails (disposition `ignore`, or the catch-all with empty
`deviceId`) falls through to `sendMessage` with the untouched `message = ""`. -/
def notificationHandler (cfg : ModuleConfig) (n : Notification) : HandlerAction :=
  if hasSubstr n.level deviceLevel then
    match find cfg.deviceNotifications (ruleMatches n) with
    | none =>
      if cfg.forwardAllNotifications then
        let message := composeMessage cfg.defaultMessage n
        if cfg.collectDefaultMessages then .collect message else .send message
      else
        .send (composeMessage cfg.defaultMessage n)
    | some device =>
      if device.deviceId ≠ [] ∧ device.options ≠ ("ignore").data then
        let message :=
          composeMessage (if device.message ≠ [] then device.message else cfg.defaultMessage) n
        if device.options = ("collect").data then .collect message else .send message
      else
        .send []
  else
    .noAction

/-- Mutable instance state: `this.messages`, plus the stray `length` property
that the flush callback writes (nothing in the source ever reads it). -/
structure ModuleState where
  messages : Messages
  length : Nat
  deriving DecidableEq

/-- Effect of one handler invocation on the instance state: a collect appends
to `this.messages`, a send leaves the state alone and emits the text
(second component), an early return does nothing. -/
def handlerStep (cfg : ModuleConfig) (s : ModuleState) (n : Notification) :
    ModuleState × Option Str :=
  match notificationHandler cfg n with
  | .noAction => (s, none)
  | .collect text => ({ s with messages := collectNotification s.messages n text }, none)
  | .send text => (s, some text)

/-- `this.notifier`, the flush callback: sends `JSON.stringify(this.messages)`
(modelled as the snapshot itself) and sets `this.length = 0`; it never clears
`this.messages`. -/
def notifier (s : ModuleState) : Messages × ModuleState :=
  (s.messages, { s with length := 0 })

/-- `TelegramNotifier.prototype.oneDay` = 24 * 60 * 60 * 1000 ms. -/
def oneDay : Nat := 24 * 60 * 60 * 1000

/-- `TelegramNotifier.prototype.scheduleNotification` on `this.interval`:
first element `> now`, else first element `< now` bumped by one day in place.
Returns the timestamp handed to `setTimeout` (as `target`; the JS delay is
`target - now`) and the updated interval array. When both searches fail the
source reads and writes index `-1`: the array contents stay unchanged and
`setTimeout` receives a `NaN` delay, modelled as target `none`. -/
def scheduleNotification (interval : List Nat) (now : Nat) : Option Nat × List Nat :=
  match indexOf (fun x => decide (now < x)) interval with
  | some next => (interval[next]?, interval)
  | none =>
    match indexOf (fun x => decide (x < now)) interval with
    | some next =>
      let updated := interval.set next (interval.getD next 0 + oneDay)
      (updated[next]?, updated)
    | none => (none, interval)

/-- `scheduleNotification` with JS exceptions made visible in the type: the
function body contains no `throw`, so every run returns `.ok`. A
configuration error, which the spec demands for an empty interval list,
would surface as `.error` here. -/
def scheduleNotificationE (interval : List Nat) (now : Nat) :
    Except Str (Option Nat × List Nat) :=
  .ok (scheduleNotification interval now)

/-- What the host hands to the `complete` callback of `http.request`: a
response object carrying a numeric `status`, or an opaque transport-error
value (a string, per the spec); on the latter, `response.status` is
`undefined` in the source. -/
inductive Response where
  | ok (status : Int)
  | err (text : Str)
  deriving DecidableEq

/-- A log entry produced via `this.addNotification` (text elided; the claims
only count entries and their level). -/
inductive LogEntry where
  | info
  | error
  deriving DecidableEq

/-- The `complete` callback inside `sendMessage` (src/index.js lines 135-142):
logs info when `status == 200 && logLevel == 2`, error when
`status > 200 && logLevel > 0`, nothing otherwise. For an opaque error value
`response.status` is `undefined`, so both comparisons are false and nothing
is logged. -/
def sendMessageComplete (logLevel : Int) (r : Response) : List LogEntry :=
  match r with
  | .ok status =>
    if status = 200 ∧ logLevel = 2 then [.info]
    else if 200 < status ∧ 0 < logLevel then [.error]
    else []
  | .err _ => []

/-- C1/C2/C3 etc. use concrete inputs; these are shared fixture values. -/
def ruleAV : DeviceRule := ⟨("A").data, ("V").data, [], []⟩

/-- The `(device=A, no value)` rule of C1's catalog. -/
def ruleA : DeviceRule := ⟨("A").data, [], [], []⟩

/-- The catch-all rule (no deviceId, no value) of C1's catalog. -/
def ruleCatchAll : DeviceRule := ⟨[], [], [], []⟩

/-- C1's three-rule catalog, listed in reverse priority order so that the
`init`-time sort has to establish the priority order. -/
def catalogC1 : List DeviceRule := [ruleAV, ruleA, ruleCatchAll]

/-- A device notification from source `B`, matching none of C1's rules. -/
def nFromB : Notification := ⟨("device").data, ("B").data, 0, ⟨("Dev").data, ("x").data⟩⟩

/-- A device notification from source `A` carrying value `V`. -/
def nC1V : Notification := ⟨("device").data, ("A").data, 1, ⟨("Door").data, ("V").data⟩⟩

/-- C2: a catalog whose only rule matches device `A` with disposition `ignore`. -/
def cfgIgnore : ModuleConfig :=
  { deviceNotifications := [⟨("A").data, [], [], ("ignore").data⟩],
    forwardAllNotifications := false, collectDefaultMessages := false,
    defaultMessage := ("hi").data, logLevel := 1 }

/-- C2: an empty catalog with `forwardAllNotifications` off. -/
def cfgNoMatch : ModuleConfig := { cfgIgnore with deviceNotifications := [] }

/-- C2: a device notification from source `A`. -/
def nIgn : Notification := ⟨("device-info").data, ("A").data, 3, ⟨("Door").data, ("on").data⟩⟩

/-- C3: instance state holding one already-collected entry for device `Door`. -/
def stateC3 : ModuleState := { messages := [(("Door").data, [⟨5, ("open").data⟩])], length := 9 }

/-- C3: a notification for device `Door` collected after the flush. -/
def nC3 : Notification := ⟨("device-info").data, ("D1").data, 7, ⟨("Door").data, ("shut").data⟩⟩

/-- C5: the notification of the spec's compose example
(`{dev:"Door", l:"open", timestamp:100}`). -/
def exC5 : Notification := ⟨("device").data, ("Door").data, 100, ⟨("Door").data, ("open").data⟩⟩

/-- C6: an arbitrary concrete config for the witness. -/
def cfgC6 : ModuleConfig :=
  { deviceNotifications := [⟨("A").data, [], [], ("collect").data⟩],
    forwardAllNotifications := true, collectDefaultMessages := true,
    defaultMessage := ("$DEVICE: $VALUE").data, logLevel := 2 }

/-- C6: instance state for the witness. -/
def stateC6 : ModuleState := { messages := [(("A").data, [⟨1, ("x").data⟩])], length := 0 }

/-- C6: a notification whose level lacks the substring `device`. -/
def nWarn : Notification := ⟨("warning").data, ("A").data, 4, ⟨("Door").data, ("on").data⟩⟩

/-- C9: a batch holding entries for two devices. -/
def mC9 : Messages := [(("Door").data, [⟨1, ("a").data⟩]), (("Win").data, [⟨2, ("b").data⟩])]

/-- C9: a notification for device `Door`. -/
def nC9 : Notification := ⟨("device").data, ("D").data, 9, ⟨("Door").data, ("on").data⟩⟩

/-- C10: a notification whose device name contains the literal `$VALUE`. -/
def nC10 : Notification := ⟨("device").data, ("A").data, 1, ⟨("a$VALUEb").data, ("X").data⟩⟩

/-! ## Helper lemmas -/

/-- A string with no occurrence of the pattern is left unchanged. -/
theorem replaceFirst_of_not_hasSubstr (pat repl s : Str) (h : hasSubstr s pat = false) :
    replaceFirst pat repl s = s := by
  induction s with
  | nil =>
    simp only [hasSubstr] at h
    simp [replaceFirst, h]
  | cons c rest ih =>
    simp only [hasSubstr, Bool.or_eq_false_iff] at h
    simp [replaceFirst, h.1, ih h.2]

/-- `indexOf` finds nothing when no element satisfies the predicate. -/
theorem indexOf_eq_none {α : Type} (f : α → Bool) (l : List α)
    (h : ∀ x ∈ l, f x = false) : indexOf f l = none := by
  induction l with
  | nil => rfl
  | cons a l ih =>
    simp [indexOf, h a (List.mem_cons_self a l),
      ih (fun x hx => h x (List.mem_cons_of_mem a hx))]

/-- On a strictly increasing list that contains some element above `now`,
`indexOf` returns the position of the least such element. -/
theorem indexOf_first_gt (now : Nat) :
    ∀ l : List Nat, l.Pairwise (· < ·) → ∀ x ∈ l, now < x →
    ∃ i t, indexOf (fun y => decide (now < y)) l = some i ∧ l[i]? = some t ∧
      now < t ∧ t ∈ l ∧ ∀ y ∈ l, now < y → t ≤ y := by
  intro l
  induction l with
  | nil => intro _ x hx; cases hx
  | cons a l ih =>
    intro hs x hx hgt
    by_cases ha : now < a
    · refine ⟨0, a, by simp [indexOf, ha], by simp, ha, List.mem_cons_self a l, ?_⟩
      intro y hy hgty
      rcases List.mem_cons.mp hy with rfl | hy
      · exact le_refl y
      · exact le_of_lt ((List.pairwise_cons.mp hs).1 y hy)
    · have hx' : x ∈ l := by
        rcases List.mem_cons.mp hx with rfl | h
        · exact absurd hgt ha
        · exact h
      obtain ⟨i, t, h1, h2, h3, h4, h5⟩ := ih (List.pairwise_cons.mp hs).2 x hx' hgt
      refine ⟨i + 1, t, by simp [indexOf, ha, h1], by simpa using h2, h3,
        List.mem_cons_of_mem a h4, ?_⟩
      intro y hy hgty
      rcases List.mem_cons.mp hy with rfl | hy
      · exact absurd hgty ha
      · exact h5 y hy hgty

/-- Pushing an entry for one device leaves every other device's lookup alone. -/
theorem lookupDev_pushEntry_ne (m : Messages) (dv d : Str) (e : Entry) (h : d ≠ dv) :
    lookupDev (pushEntry m dv e) d = lookupDev m d := by
  induction m with
  | nil => rfl
  | cons kv rest ih =>
    obtain ⟨k, es⟩ := kv
    by_cases hk : k = dv
    · subst hk
      simp [pushEntry, lookupDev, Ne.symm h]
    · by_cases hkd : k = d
      · simp [pushEntry, lookupDev, hk, hkd, h]
      · simp [pushEntry, lookupDev, hk, hkd, ih]

/-- Pushing an entry for a present device appends it to that device's array. -/
theorem lookupDev_pushEntry_eq (m : Messages) (dv : Str) (e : Entry) (es : List Entry)
    (h : lookupDev m dv = some es) :
    lookupDev (pushEntry m dv e) dv = some (es ++ [e]) := by
  induction m with
  | nil => simp [lookupDev] at h
  | cons kv rest ih =>
    obtain ⟨k, es'⟩ := kv
    by_cases hk : k = dv
    · subst hk
      simp [lookupDev] at h
      simp [pushEntry, lookupDev, h]
    · simp only [lookupDev, if_neg hk] at h
      simp [pushEntry, lookupDev, hk, ih h]

/-- Appending a fresh key at the end does not change other keys' lookups. -/
theorem lookupDev_append_ne (m : Messages) (dv d : Str) (es : List Entry) (h : d ≠ dv) :
    lookupDev (m ++ [(dv, es)]) d = lookupDev m d := by
  induction m with
  | nil => simp [lookupDev, Ne.symm h]
  | cons kv rest ih =>
    obtain ⟨k, es'⟩ := kv
    by_cases hkd : k = d
    · simp [lookupDev, hkd]
    · simp [lookupDev, hkd, ih]

/-- Appending a key that was absent makes its lookup find the new array. -/
theorem lookupDev_append_eq (m : Messages) (dv : Str) (es : List Entry)
    (h : lookupDev m dv = none) :
    lookupDev (m ++ [(dv, es)]) dv = some es := by
  induction m with
  | nil => simp [lookupDev]
  | cons kv rest ih =>
    obtain ⟨k, es'⟩ := kv
    by_cases hk : k = dv
    · simp [lookupDev, hk] at h
    · simp only [lookupDev, if_neg hk] at h
      simp [lookupDev, hk, ih h]

/-! ## Claims -/

/-- C1 (corrected claim, counterexample part): with a catalog containing an
`(A,V)` rule, an `(A, no value)` rule and a catch-all rule, a notification
from a different device `B` does NOT match the catch-all rule, contrary to
the claim: the handler's predicate requires `deviceId === source`, which the
catch-all's empty deviceId never satisfies. -/
theorem C1_counterexample :
    matchRule catalogC1 nFromB = none
    ∧ matchRule catalogC1 nFromB ≠ some ruleCatchAll := by decide

/-- C1 (amended): after the init-time sort establishes the priority order,
a notification from `A` with value `V` matches the `(A,V)` rule, one from `A`
with any other value matches the `(A, no value)` rule, and one from any other
(non-empty) device id matches no rule at all — the catch-all is never
returned by the match. -/
theorem C1_amended (A V : Str) (hA : A ≠ []) (hV : V ≠ [])
    (mAV oAV mA oA mC oC : Str) :
    (∀ n : Notification, n.source = A → n.message.l = V →
      matchRule [⟨[], [], mC, oC⟩, ⟨A, [], mA, oA⟩, ⟨A, V, mAV, oAV⟩] n
        = some ⟨A, V, mAV, oAV⟩)
    ∧ (∀ n : Notification, n.source = A → n.message.l ≠ V →
      matchRule [⟨[], [], mC, oC⟩, ⟨A, [], mA, oA⟩, ⟨A, V, mAV, oAV⟩] n
        = some ⟨A, [], mA, oA⟩)
    ∧ (∀ n : Notification, n.source ≠ A → n.source ≠ [] →
      matchRule [⟨[], [], mC, oC⟩, ⟨A, [], mA, oA⟩, ⟨A, V, mAV, oAV⟩] n
        = none) := by
  cases A with
  | nil => exact absurd rfl hA
  | cons a as =>
  cases V with
  | nil => exact absurd rfl hV
  | cons v vs =>
  have hsort : sortRules [⟨[], [], mC, oC⟩, ⟨a :: as, [], mA, oA⟩, ⟨a :: as, v :: vs, mAV, oAV⟩]
      = [⟨a :: as, v :: vs, mAV, oAV⟩, ⟨a :: as, [], mA, oA⟩, ⟨[], [], mC, oC⟩] := by
    simp [sortRules, insertRule, ruleBefore]
  refine ⟨?_, ?_, ?_⟩
  · intro n hs hl
    simp [matchRule, hsort, find, ruleMatches, hs, hl]
  · intro n hs hl
    have hne : decide ((v :: vs : Str) = n.message.l) = false :=
      decide_eq_false (fun hEq => hl hEq.symm)
    simp [matchRule, hsort, find, ruleMatches, hs, hne]
  · intro n hs hne
    have h1 : decide ((a :: as : Str) = n.source) = false :=
      decide_eq_false (fun hEq => hs hEq.symm)
    have h2 : decide (([] : Str) = n.source) = false :=
      decide_eq_false (fun hEq => hne hEq.symm)
    simp [matchRule, hsort, find, ruleMatches, h1, h2]
    exact hne

/-- C1 witness: the amended theorem applied to the concrete catalog and a
concrete notification from `A` with value `V`. -/
theorem C1_amended_witness :
    matchRule [⟨[], [], [], []⟩, ⟨("A").data, [], [], []⟩, ⟨("A").data, ("V").data, [], []⟩] nC1V
      = some ⟨("A").data, ("V").data, [], []⟩ :=
  (C1_amended (("A").data) (("V").data) (by decide) (by decide) [] [] [] [] [] []).1 nC1V rfl rfl

/-- C2 (code bug): the claim says the Suppress decisions — a matched rule
with disposition `ignore`, or no match with `forwardAllNotifications` off —
issue no outbound send; the source instead falls through to `sendMessage` in
both cases, sending the empty string for an ignored rule and the composed
default template when nothing matched (JS evaluates `false.deviceId` to
`undefined`, so the guard passes). -/
theorem C2_code_bug :
    notificationHandler cfgIgnore nIgn = .send []
    ∧ notificationHandler cfgNoMatch nIgn = .send (("hi").data) := by decide

/-- C3 (code bug): the claim says a flush drains the batch completely; the
source's flush callback only sets the stray `this.length = 0` and never
clears `this.messages`, so the pre-flush entry survives and a subsequent
collect appends to the old sequence instead of starting a fresh one. -/
theorem C3_code_bug :
    (notifier stateC3).2.messages = stateC3.messages
    ∧ lookupDev (notifier stateC3).2.messages (("Door").data) = some [⟨5, ("open").data⟩]
    ∧ lookupDev (collectNotification (notifier stateC3).2.messages nC3 (("shut").data))
        (("Door").data)
      = some [⟨5, ("open").data⟩, ⟨7, ("shut").data⟩] := by decide

/-- C4 (corrected claim, counterexample part): for the strictly increasing
singleton `[100]` at `now = 100`, every point is less than or equal to `now`,
yet the scheduler does not advance and return the earliest point: the second
search demands a point strictly below `now` and finds none, so no valid
target is produced at all. -/
theorem C4_counterexample :
    (∀ x ∈ [(100 : Nat)], x ≤ 100)
    ∧ scheduleNotification [100] 100 = (none, [100])
    ∧ (scheduleNotification [100] 100).1 ≠ some (100 + oneDay) := by decide

/-- C4 (amended): on a strictly increasing interval list, if some point lies
strictly above `now` the scheduler returns the least such point and leaves
the list unchanged; if every point is at most `now` and the earliest point is
strictly below `now`, it advances the earliest point by exactly 24 hours in
place and returns the advanced value. -/
theorem C4_amended (interval : List Nat) (now : Nat) (hs : interval.Pairwise (· < ·)) :
    ((∃ x ∈ interval, now < x) →
      (scheduleNotification interval now).2 = interval ∧
      ∃ t, (scheduleNotification interval now).1 = some t ∧ now < t ∧ t ∈ interval ∧
        ∀ y ∈ interval, now < y → t ≤ y)
    ∧ (∀ p rest, interval = p :: rest → (∀ x ∈ interval, x ≤ now) → p < now →
      scheduleNotification interval now = (some (p + oneDay), (p + oneDay) :: rest)) := by
  constructor
  · rintro ⟨x, hx, hgt⟩
    obtain ⟨i, t, h1, h2, h3, h4, h5⟩ := indexOf_first_gt now interval hs x hx hgt
    have hres : scheduleNotification interval now = (interval[i]?, interval) := by
      simp only [scheduleNotification, h1]
    rw [hres]
    exact ⟨rfl, t, h2, h3, h4, h5⟩
  · rintro p rest rfl hall hp
    have h1 : indexOf (fun x => decide (now < x)) (p :: rest) = none :=
      indexOf_eq_none _ _ (fun x hx => by
        simp only [decide_eq_false_iff_not, Nat.not_lt]
        exact hall x hx)
    have h2 : indexOf (fun x => decide (x < now)) (p :: rest) = some 0 := by
      simp [indexOf, hp]
    simp [scheduleNotification, h1, h2, List.set]

/-- C4 witness: the spec's own example — points `[800, 2000]` with
`now = 2100` past both — yields the earliest point advanced by one day. -/
theorem C4_amended_witness :
    scheduleNotification [800, 2000] 2100 = (some (800 + oneDay), [800 + oneDay, 2000]) :=
  (C4_amended [800, 2000] 2100 (by decide)).2 800 [2000] rfl (by decide) (by decide)

/-- C5 (confirmed): compose yields the spec's example output, leaves a
template containing no placeholder untouched, and replaces only the first
occurrence of a repeated placeholder, leaving the later occurrence in the
output. -/
theorem C5_compose :
    composeMessage (("$DEVICE: $VALUE at $TIME").data) exC5 = ("Door: open at 100").data
    ∧ (∀ (t : Str) (n : Notification),
      hasSubstr t pTIME = false → hasSubstr t pDEVICE = false → hasSubstr t pVALUE = false →
      composeMessage t n = t)
    ∧ (∀ n : Notification, composeMessage (("$VALUE$VALUE").data) n = n.message.l ++ pVALUE) := by
  refine ⟨by decide, ?_, fun n => rfl⟩
  intro t n h1 h2 h3
  unfold composeMessage
  rw [replaceFirst_of_not_hasSubstr _ _ _ h1, replaceFirst_of_not_hasSubstr _ _ _ h2,
    replaceFirst_of_not_hasSubstr _ _ _ h3]

/-- C5 witness: a template without placeholders passes through compose
unchanged. -/
theorem C5_compose_witness :
    composeMessage (("no placeholders").data) exC5 = ("no placeholders").data :=
  C5_compose.2.1 (("no placeholders").data) exC5 (by decide) (by decide) (by decide)

/-- C6 (confirmed): a notification whose level lacks the substring `device`
leaves the instance state untouched and sends nothing. -/
theorem C6_non_device_frame (cfg : ModuleConfig) (s : ModuleState) (n : Notification)
    (h : hasSubstr n.level deviceLevel = false) :
    handlerStep cfg s n = (s, none) := by
  simp [handlerStep, notificationHandler, h]

/-- C6 witness: a `warning`-level notification on a concrete config and
state. -/
theorem C6_non_device_frame_witness :
    handlerStep cfgC6 stateC6 nWarn = (stateC6, none) :=
  C6_non_device_frame cfgC6 stateC6 nWarn (by decide)

/-- C7 (corrected claim, counterexample part): with an empty flush-point list
the scheduler does not fail with a configuration error — no exception exists
in the source — it silently returns no valid target (the JS `setTimeout` is
armed with a `NaN` delay) and leaves the list empty. -/
theorem C7_counterexample :
    scheduleNotificationE [] 1000 = .ok (none, []) := rfl

/-- C7 (amended): for every `now`, scheduling on an empty point list raises
no error and produces no valid flush target; the invalid timer is armed
silently. -/
theorem C7_amended (now : Nat) : scheduleNotificationE [] now = .ok (none, []) := rfl

/-- C8 (corrected claim, counterexample part): a transport error (an opaque
error value in place of a status object) with verbosity 1 produces no log
entry at all — `undefined > 200` is false — contrary to the claim's "exactly
one error-level entry". -/
theorem C8_counterexample :
    sendMessageComplete 1 (Response.err (("timeout").data)) = []
    ∧ sendMessageComplete 1 (Response.err (("timeout").data)) ≠ [LogEntry.error] := by decide

/-- C8 (amended): a completion whose response carries a numeric status above
200 logs exactly one error entry when verbosity is at least 1; a status-200
completion logs one info entry exactly when verbosity equals 2 (hence only if
it is at least 2); a transport error that carries no numeric status logs
nothing. The callback issues no further request, so no retry occurs. -/
theorem C8_amended (logLevel status : Int) :
    (200 < status → 1 ≤ logLevel → sendMessageComplete logLevel (.ok status) = [.error])
    ∧ (sendMessageComplete logLevel (.ok 200) = [.info] ↔ logLevel = 2)
    ∧ (sendMessageComplete logLevel (.err (("timeout").data)) = []) := by
  refine ⟨?_, ?_, rfl⟩
  · intro h1 h2
    have hne : ¬(status = 200 ∧ logLevel = 2) := by omega
    rw [sendMessageComplete, if_neg hne, if_pos ⟨h1, by omega⟩]
  · by_cases h : logLevel = 2
    · simp [sendMessageComplete, h]
    · simp [sendMessageComplete, h]

/-- C8 witness: a 500 response at verbosity 1 logs one error entry, a 200
response at verbosity 2 logs one info entry. -/
theorem C8_amended_witness :
    sendMessageComplete 1 (Response.ok 500) = [LogEntry.error]
    ∧ sendMessageComplete 2 (Response.ok 200) = [LogEntry.info] :=
  ⟨(C8_amended 1 500).1 (by decide) (by decide), (C8_amended 2 200).2.1.mpr rfl⟩

/-- C9 (confirmed): collecting a notification leaves every other device's
pending sequence unchanged and appends exactly one entry
`{time: timestamp, message: text}` at the end of the notification device's
sequence, creating it when absent. -/
theorem C9_collect_frame (m : Messages) (n : Notification) (text : Str)
    (d : Str) (hd : d ≠ n.message.dev) :
    lookupDev (collectNotification m n text) d = lookupDev m d
    ∧ lookupDev (collectNotification m n text) n.message.dev
      = some (((lookupDev m n.message.dev).getD []) ++ [⟨n.timestamp, text⟩]) := by
  cases h : lookupDev m n.message.dev with
  | none =>
    have hc : collectNotification m n text
        = pushEntry (m ++ [(n.message.dev, [])]) n.message.dev ⟨n.timestamp, text⟩ := by
      simp [collectNotification, h]
    constructor
    · rw [hc, lookupDev_pushEntry_ne _ _ _ _ hd, lookupDev_append_ne _ _ _ _ hd]
    · rw [hc, lookupDev_pushEntry_eq _ _ _ [] (lookupDev_append_eq _ _ _ h)]
      simp
  | some es =>
    have hc : collectNotification m n text
        = pushEntry m n.message.dev ⟨n.timestamp, text⟩ := by
      simp [collectNotification, h]
    constructor
    · rw [hc, lookupDev_pushEntry_ne _ _ _ _ hd]
    · rw [hc, lookupDev_pushEntry_eq _ _ _ es h]
      simp

/-- C9 witness: collecting for `Door` in a two-device batch leaves `Win`
untouched and appends the new entry to `Door`. -/
theorem C9_collect_frame_witness :
    lookupDev (collectNotification mC9 nC9 (("c").data)) (("Win").data)
      = lookupDev mC9 (("Win").data)
    ∧ lookupDev (collectNotification mC9 nC9 (("c").data)) nC9.message.dev
      = some (((lookupDev mC9 nC9.message.dev).getD []) ++ [⟨nC9.timestamp, ("c").data⟩]) :=
  C9_collect_frame mC9 nC9 (("c").data) (("Win").data) (by decide)

/-- C10 (confirmed): compose substitutes sequentially, so a device name
containing the literal `$VALUE` has the notification's value spliced into it:
with device name `a$VALUEb` and value `X`, template `$DEVICE` composes to
`aXb`, not to the device name verbatim, and the output contains the value. -/
theorem C10_sequential :
    hasSubstr nC10.message.dev pVALUE = true
    ∧ composeMessage pDEVICE nC10 = ("aXb").data
    ∧ composeMessage pDEVICE nC10 ≠ nC10.message.dev
    ∧ hasSubstr (composeMessage pDEVICE nC10) nC10.message.l = true := by decide

end Telegram
